import Mathlib

/-!
Verification development for the x402 facilitator's verify/settle engine.

The TypeScript sources `src/routes/verify.ts` and `src/routes/settle.ts`
(current x402 V2 snapshot, ERC-2612 Permit variant) are shallowly embedded
as pure Lean functions.  External effects (EIP-712 signature verification,
the wall clock, the on-chain `balanceOf` read, transaction submission and
receipt waiting) are supplied by an explicit environment record: each
awaited call's outcome is a field of the environment, and the settle path
additionally returns the ordered trace of chain interactions it performed.
JavaScript string operations (`startsWith`, `toLowerCase`, `slice`, the
regex `^eip155:(\d+)$`, truthiness of strings under `||`) are embedded as
computable functions over the character list of a `String`.
Monetary quantities (`BigInt` of decimal strings in the source) are
embedded as `Nat`, matching arbitrary-precision integer comparison.
-/

set_option linter.unusedVariables false

namespace X402

/-- Embedding of JavaScript `s.startsWith(pre)`. -/
def jsStartsWith (s pre : String) : Bool :=
  pre.data.isPrefixOf s.data

/-- Embedding of JavaScript `s.toLowerCase()` (sufficient for ASCII addresses). -/
def jsToLowerCase (s : String) : String :=
  ⟨s.data.map Char.toLower⟩

/-- Embedding of JavaScript `s || dflt` for strings: the empty string is falsy. -/
def jsOrStr (s dflt : String) : String :=
  if s = "" then dflt else s

/-- Embedding of JavaScript `o?.x || dflt` where the chain may be absent. -/
def jsOrOpt (o : Option String) (dflt : String) : String :=
  match o with
  | some s => jsOrStr s dflt
  | none => dflt

/-- Value of a decimal digit string, as computed by `parseInt(s, 10)`
on an all-digit string. -/
def decDigitsToNat (l : List Char) : Nat :=
  l.foldl (fun n c => 10 * n + (c.toNat - 48)) 0

/-- Embedding of JavaScript `s.slice(a, b)` for `a ≤ b` (clamping semantics). -/
def jsSlice (s : String) (a b : Nat) : String :=
  ⟨(s.data.drop a).take (b - a)⟩

/-- Value of a hexadecimal digit character, if it is one. -/
def hexDigitVal (c : Char) : Option Nat :=
  if '0' ≤ c ∧ c ≤ '9' then some (c.toNat - 48)
  else if 'a' ≤ c ∧ c ≤ 'f' then some (c.toNat - 87)
  else if 'A' ≤ c ∧ c ≤ 'F' then some (c.toNat - 55)
  else none

/-- Embedding of JavaScript `parseInt(s, 16)`: parses the longest valid
hexadecimal prefix, `none` (NaN) when the first character is not a hex digit. -/
def parseIntHex (s : String) : Option Nat :=
  let ds := s.data.takeWhile (fun c => (hexDigitVal c).isSome)
  if ds = [] then none
  else some (ds.foldl (fun n c => 16 * n + ((hexDigitVal c).getD 0)) 0)

/-- Embedding of the `config` object of `src/config.ts` (current snapshot):
the fields consumed by the verify and settle routes.  Chain ids, RPC urls,
token addresses and decimals are environment-overridable; `baseSepoliaChainId`
and `radiusTestnetChainId` are hard-coded to 84532 and 72344. -/
structure Config where
  baseChainId : Nat
  baseRpcUrl : String
  baseSbcTokenAddress : String
  baseSbcDecimals : Nat
  baseFacilitatorPrivateKey : String
  baseSepoliaChainId : Nat
  baseSepoliaRpcUrl : String
  baseSepoliaSbcTokenAddress : String
  baseSepoliaSbcDecimals : Nat
  baseSepoliaFacilitatorPrivateKey : String
  radiusChainId : Nat
  radiusRpcUrl : String
  radiusSbcTokenAddress : String
  radiusSbcDecimals : Nat
  radiusFacilitatorPrivateKey : String
  radiusTestnetChainId : Nat
  radiusTestnetRpcUrl : String
  radiusTestnetSbcTokenAddress : String
  radiusTestnetSbcDecimals : Nat
  radiusTestnetFacilitatorPrivateKey : String
deriving DecidableEq

/-- The `config` values of `src/config.ts` when no environment variable is set
(facilitator private keys default to the empty string). -/
def defaultConfig : Config where
  baseChainId := 8453
  baseRpcUrl := "https://mainnet.base.org"
  baseSbcTokenAddress := "0xfdcC3dd6671eaB0709A4C0f3F53De9a333d80798"
  baseSbcDecimals := 18
  baseFacilitatorPrivateKey := ""
  baseSepoliaChainId := 84532
  baseSepoliaRpcUrl := "https://sepolia.base.org"
  baseSepoliaSbcTokenAddress := "0xf9FB20B8E097904f0aB7d12e9DbeE88f2dcd0F16"
  baseSepoliaSbcDecimals := 6
  baseSepoliaFacilitatorPrivateKey := ""
  radiusChainId := 723
  radiusRpcUrl := "https://rpc.radiustech.xyz"
  radiusSbcTokenAddress := "0x33ad9e4bd16b69b5bfded37d8b5d9ff9aba014fb"
  radiusSbcDecimals := 6
  radiusFacilitatorPrivateKey := ""
  radiusTestnetChainId := 72344
  radiusTestnetRpcUrl := "https://rpc.testnet.radiustech.xyz"
  radiusTestnetSbcTokenAddress := "0x33ad9e4bd16b69b5bfded37d8b5d9ff9aba014fb"
  radiusTestnetSbcDecimals := 6
  radiusTestnetFacilitatorPrivateKey := ""

/-- The x402 V2 `authorization` object (ERC-2612 permit message fields). -/
structure Authorization where
  from_ : String
  to_ : String
  value : Nat
  validAfter : Nat
  validBefore : Nat
  nonce : Nat
deriving DecidableEq

/-- The x402 V2 `paymentPayload.payload` object: authorization (may be absent)
plus the compact 65-byte permit signature as a hex string. -/
structure PayloadV2 where
  authorization : Option Authorization
  signature : String
deriving DecidableEq

/-- The x402 V2 `paymentPayload.accepted` object. -/
structure Accepted where
  scheme : String
  network : String
deriving DecidableEq

/-- The x402 V2 `paymentPayload` object (the `payload` member may be absent,
mirroring `paymentPayload.payload || {}` in the source). -/
structure PaymentPayload where
  accepted : Accepted
  payload : Option PayloadV2
deriving DecidableEq

/-- The `paymentRequirements.extra` object (EIP-712 domain name/version hints). -/
structure ExtraInfo where
  name : Option String
  version : Option String
deriving DecidableEq

/-- The `paymentRequirements` object fields consumed by the routes. -/
structure PaymentRequirements where
  payTo : String
  maxAmountRequired : Nat
  extra : Option ExtraInfo
deriving DecidableEq

/-- Embedding of `paymentPayload.payload?.authorization?.from || 'unknown'`. -/
def payerOf (pp : PaymentPayload) : String :=
  match pp.payload with
  | some pl =>
    match pl.authorization with
    | some auth => jsOrStr auth.from_ "unknown"
    | none => "unknown"
  | none => "unknown"

namespace Verify

/-- The per-network record returned by `resolveEvmNetwork` in `verify.ts`. -/
structure NetworkConfig where
  label : String
  emoji : String
  chainId : Nat
  rpcUrl : String
  sbcTokenAddress : String
  decimals : Nat
deriving DecidableEq

/-- Embedding of `parseEvmChainId` in `verify.ts`: the regex test
`network.match(/^eip155:(\d+)$/)` followed by `parseInt(match[1], 10)`. -/
def parseEvmChainId (network : String) : Option Nat :=
  if jsStartsWith network "eip155:" = true
      ∧ network.data.drop 7 ≠ []
      ∧ (network.data.drop 7).all Char.isDigit = true then
    some (decDigitsToNat (network.data.drop 7))
  else
    none

/-- Embedding of `resolveEvmNetwork` in `verify.ts`: parse the CAIP-2
identifier, then match the parsed chain id against the configured ids
(Base, Base Sepolia, Radius, Radius Testnet) by exact integer comparison. -/
def resolveEvmNetwork (cfg : Config) (network : String) : Option NetworkConfig :=
  match parseEvmChainId network with
  | none => none
  | some chainId =>
    if chainId = cfg.baseChainId then
      some { label := "Base Mainnet", emoji := "🔵", chainId := cfg.baseChainId,
             rpcUrl := cfg.baseRpcUrl, sbcTokenAddress := cfg.baseSbcTokenAddress,
             decimals := cfg.baseSbcDecimals }
    else if chainId = cfg.baseSepoliaChainId then
      some { label := "Base Sepolia", emoji := "🔵", chainId := cfg.baseSepoliaChainId,
             rpcUrl := cfg.baseSepoliaRpcUrl, sbcTokenAddress := cfg.baseSepoliaSbcTokenAddress,
             decimals := cfg.baseSepoliaSbcDecimals }
    else if chainId = cfg.radiusChainId then
      some { label := "Radius Mainnet", emoji := "🟢", chainId := cfg.radiusChainId,
             rpcUrl := cfg.radiusRpcUrl, sbcTokenAddress := cfg.radiusSbcTokenAddress,
             decimals := cfg.radiusSbcDecimals }
    else if chainId = cfg.radiusTestnetChainId then
      some { label := "Radius Testnet", emoji := "🟢", chainId := cfg.radiusTestnetChainId,
             rpcUrl := cfg.radiusTestnetRpcUrl, sbcTokenAddress := cfg.radiusTestnetSbcTokenAddress,
             decimals := cfg.radiusTestnetSbcDecimals }
    else
      none

/-- The EIP-712 domain built for the ERC-2612 permit check in `verify.ts`:
`extra.name || 'Stable Coin'`, `extra.version || '1'`, the resolved chain id,
and the token address as verifying contract. -/
structure PermitDomain where
  name : String
  version : String
  chainId : Nat
  verifyingContract : String
deriving DecidableEq

/-- Embedding of the `permitDomain` construction in `verify.ts`. -/
def permitDomain (networkConfig : NetworkConfig) (extra : Option ExtraInfo) : PermitDomain where
  name := jsOrOpt (extra.bind (fun e => e.name)) "Stable Coin"
  version := jsOrOpt (extra.bind (fun e => e.version)) "1"
  chainId := networkConfig.chainId
  verifyingContract := networkConfig.sbcTokenAddress

/-- Outcome of the awaited `verifyTypedData` call: it returned `true`,
returned `false`, or threw (malformed signature, internal failure). -/
inductive SigOutcome where
  | returnedTrue
  | returnedFalse
  | raised
deriving DecidableEq

/-- Environment of one verify invocation: the signature-check outcome, the
current Unix time in seconds (`Math.floor(Date.now() / 1000)`), and the
outcome of the on-chain `balanceOf` read (`ok balance` or a thrown
transport error carrying its message). -/
structure Env where
  sig : SigOutcome
  now : Nat
  balance : Except String Nat

/-- The JSON body written by the verify route, together with the HTTP status
used to send it (200 for business results, 500 for the outer catch). -/
structure VerifyResponse where
  status : Nat
  isValid : Bool
  payer : String
  invalidReason : Option String
deriving DecidableEq

/-- Result of a verify invocation: an HTTP response, or delegation to
`verifySolanaPayment` (code outside the embedded core) for networks whose
identifier starts with `solana:`. -/
inductive VerifyResult where
  | response (r : VerifyResponse)
  | solanaDelegated (payload : Option PayloadV2) (requirements : PaymentRequirements)
deriving DecidableEq

/-- Embedding of `verifyPayment` in `verify.ts` (x402 V2 snapshot): the
ordered pipeline scheme → solana routing → network resolution → authorization
presence → permit signature → deadline → amount → recipient → on-chain
balance, with the outer catch converting a thrown balance read into a
500 `Server error:` response. -/
def verifyPayment (cfg : Config) (env : Env)
    (paymentPayload : Option PaymentPayload)
    (paymentRequirements : PaymentRequirements) : VerifyResult :=
  match paymentPayload with
  | none => .response ⟨500, false, "unknown", some "Missing paymentPayload"⟩
  | some pp =>
    if pp.accepted.scheme ≠ "exact" then
      .response ⟨200, false, payerOf pp,
        some ("Unsupported scheme: " ++ pp.accepted.scheme)⟩
    else if jsStartsWith pp.accepted.network "solana:" = true then
      .solanaDelegated pp.payload paymentRequirements
    else
      match resolveEvmNetwork cfg pp.accepted.network with
      | none => .response ⟨200, false, payerOf pp,
          some ("Unknown network: " ++ pp.accepted.network)⟩
      | some networkConfig =>
        match pp.payload with
        | none => .response ⟨200, false, "unknown",
            some "Missing authorization data in payload"⟩
        | some pl =>
          match pl.authorization with
          | none => .response ⟨200, false, "unknown",
              some "Missing authorization data in payload"⟩
          | some auth =>
            let recipient := paymentRequirements.payTo
            match env.sig with
            | .raised => .response ⟨200, false, auth.from_,
                some "Permit signature verification failed"⟩
            | .returnedFalse => .response ⟨200, false, auth.from_,
                some "Invalid permit signature"⟩
            | .returnedTrue =>
              if env.now > auth.validBefore then
                .response ⟨200, false, auth.from_, some "Permit expired"⟩
              else if auth.value < paymentRequirements.maxAmountRequired then
                .response ⟨200, false, auth.from_, some "Insufficient amount"⟩
              else if jsToLowerCase recipient ≠
                  jsToLowerCase paymentRequirements.payTo then
                .response ⟨200, false, auth.from_, some "Invalid recipient"⟩
              else
                match env.balance with
                | .error msg => .response ⟨500, false, payerOf pp,
                    some ("Server error: " ++ msg)⟩
                | .ok balance =>
                  if balance < auth.value then
                    .response ⟨200, false, auth.from_, some "Insufficient balance"⟩
                  else
                    .response ⟨200, true, auth.from_, none⟩

end Verify

namespace Settle

/-- The per-network record returned by `resolveEvmNetwork` in `settle.ts`
(the settle variant also carries the facilitator credential and testnet flag). -/
structure NetworkConfig where
  label : String
  emoji : String
  chainId : Nat
  rpcUrl : String
  sbcTokenAddress : String
  decimals : Nat
  privateKey : String
  testnet : Bool
deriving DecidableEq

/-- Embedding of `parseEvmChainId` in `settle.ts` (same algorithm as the
verify route's copy). -/
def parseEvmChainId (network : String) : Option Nat :=
  if jsStartsWith network "eip155:" = true
      ∧ network.data.drop 7 ≠ []
      ∧ (network.data.drop 7).all Char.isDigit = true then
    some (decDigitsToNat (network.data.drop 7))
  else
    none

/-- Embedding of `resolveEvmNetwork` in `settle.ts`. -/
def resolveEvmNetwork (cfg : Config) (network : String) : Option NetworkConfig :=
  match parseEvmChainId network with
  | none => none
  | some chainId =>
    if chainId = cfg.baseChainId then
      some { label := "Base Mainnet", emoji := "🔵", chainId := cfg.baseChainId,
             rpcUrl := cfg.baseRpcUrl, sbcTokenAddress := cfg.baseSbcTokenAddress,
             decimals := cfg.baseSbcDecimals,
             privateKey := cfg.baseFacilitatorPrivateKey, testnet := false }
    else if chainId = cfg.baseSepoliaChainId then
      some { label := "Base Sepolia", emoji := "🔵", chainId := cfg.baseSepoliaChainId,
             rpcUrl := cfg.baseSepoliaRpcUrl, sbcTokenAddress := cfg.baseSepoliaSbcTokenAddress,
             decimals := cfg.baseSepoliaSbcDecimals,
             privateKey := cfg.baseSepoliaFacilitatorPrivateKey, testnet := true }
    else if chainId = cfg.radiusChainId then
      some { label := "Radius Mainnet", emoji := "🟢", chainId := cfg.radiusChainId,
             rpcUrl := cfg.radiusRpcUrl, sbcTokenAddress := cfg.radiusSbcTokenAddress,
             decimals := cfg.radiusSbcDecimals,
             privateKey := cfg.radiusFacilitatorPrivateKey, testnet := false }
    else if chainId = cfg.radiusTestnetChainId then
      some { label := "Radius Testnet", emoji := "🟢", chainId := cfg.radiusTestnetChainId,
             rpcUrl := cfg.radiusTestnetRpcUrl, sbcTokenAddress := cfg.radiusTestnetSbcTokenAddress,
             decimals := cfg.radiusTestnetSbcDecimals,
             privateKey := cfg.radiusTestnetFacilitatorPrivateKey, testnet := true }
    else
      none

/-- One chain interaction performed by the settle route: the pending
transaction-count read, a `writeContract` submission (function name and the
explicit nonce passed), or a `waitForTransactionReceipt` on a hash. -/
inductive ChainAction where
  | getTransactionCount
  | writeContract (functionName : String) (nonce : Nat)
  | waitForTransactionReceipt (hash : String)
deriving DecidableEq

/-- Environment of one settle invocation: outcomes of each awaited chain
call (`ok` value or thrown error message), the
`process.env.ENABLE_REAL_SETTLEMENT === 'true'` switch, and the four
`Math.random().toString(16).slice(2)` fragments used to fabricate the
simulated transaction hash. -/
structure Env where
  pendingNonce : Except String Nat
  permitWrite : Except String String
  permitReceipt : Except String Unit
  transferWrite : Except String String
  transferReceipt : Except String Unit
  enableRealSettlement : Bool
  rand1 : String
  rand2 : String
  rand3 : String
  rand4 : String

/-- The fabricated transaction hash of simulated mode:
`` `0x${rand1}${rand2}${rand3}${rand4}` ``. -/
def simulatedTxHash (env : Env) : String :=
  "0x" ++ env.rand1 ++ env.rand2 ++ env.rand3 ++ env.rand4

/-- The JSON body written by the settle route together with the HTTP status
used to send it (400 for a missing payload, otherwise 200 — the catch
block also answers 200). -/
structure SettleResponse where
  status : Nat
  success : Bool
  payer : String
  transaction : String
  network : String
  errorReason : Option String
deriving DecidableEq

/-- Result of a settle invocation: an HTTP response, or delegation to
`settleSolanaPayment` (code outside the embedded core). -/
inductive SettleResult where
  | response (r : SettleResponse)
  | solanaDelegated (payload : Option PayloadV2)
deriving DecidableEq

/-- The response produced by the outer catch block of `settlePayment`:
HTTP 200, `success:false`, empty transaction, payer and network re-extracted
from the request, `errorReason` the thrown error's message. -/
def catchResponse (pp : PaymentPayload) (msg : String) : SettleResponse :=
  ⟨200, false, payerOf pp, "", jsOrStr pp.accepted.network "unknown", some msg⟩

/-- Embedding of `settlePayment` in `settle.ts` (x402 V2 snapshot).  Returns
the route's result together with the ordered trace of chain interactions it
performed.  The pending nonce is fetched before the
`ENABLE_REAL_SETTLEMENT` switch is consulted; in real mode the permit is
submitted with that nonce and the transferFrom with its successor, each
awaited for one confirmation; in simulated mode a fabricated hash is
reported.  Any thrown error reaches the outer catch.  The viem
`privateKeyToAccount` call is modelled as succeeding: the embedding covers
configured keys the library accepts (`0x` plus 64 hex digits, see
`isWellFormedPrivateKey`); on a malformed non-empty key the source would
throw at that call, before the nonce read, and answer from the catch. -/
def settlePayment (cfg : Config) (env : Env)
    (paymentPayload : Option PaymentPayload)
    (paymentRequirements : PaymentRequirements) : SettleResult × List ChainAction :=
  match paymentPayload with
  | none => (.response ⟨400, false, "unknown", "", "unknown", some "Missing paymentPayload"⟩, [])
  | some pp =>
    if pp.accepted.scheme ≠ "exact" then
      (.response ⟨200, false, payerOf pp, "", jsOrStr pp.accepted.network "unknown",
        some ("Unsupported scheme: " ++ pp.accepted.scheme)⟩, [])
    else if jsStartsWith pp.accepted.network "solana:" = true then
      (.solanaDelegated pp.payload, [])
    else
      match resolveEvmNetwork cfg pp.accepted.network with
      | none => (.response ⟨200, false, payerOf pp, "", jsOrStr pp.accepted.network "unknown",
          some ("Unknown network: " ++ pp.accepted.network)⟩, [])
      | some networkConfig =>
        match pp.payload with
        | none => (.response ⟨200, false, "unknown", "", pp.accepted.network,
            some "Missing authorization data in payload"⟩, [])
        | some pl =>
          match pl.authorization with
          | none => (.response ⟨200, false, "unknown", "", pp.accepted.network,
              some "Missing authorization data in payload"⟩, [])
          | some auth =>
            let recipient := paymentRequirements.payTo
            let r := jsSlice pl.signature 2 66
            let s := jsSlice pl.signature 66 130
            let v := parseIntHex (jsSlice pl.signature 130 132)
            if networkConfig.privateKey = "" then
              (.response (catchResponse pp
                ("Facilitator private key not configured for " ++ networkConfig.label ++
                  ". Set the appropriate env var in .env.")), [])
            else
              match env.pendingNonce with
              | .error msg =>
                (.response (catchResponse pp msg), [ChainAction.getTransactionCount])
              | .ok pendingNonce =>
                if env.enableRealSettlement then
                  match env.permitWrite with
                  | .error msg =>
                    (.response (catchResponse pp msg),
                      [ChainAction.getTransactionCount,
                       ChainAction.writeContract "permit" pendingNonce])
                  | .ok permitHash =>
                    match env.permitReceipt with
                    | .error msg =>
                      (.response (catchResponse pp msg),
                        [ChainAction.getTransactionCount,
                         ChainAction.writeContract "permit" pendingNonce,
                         ChainAction.waitForTransactionReceipt permitHash])
                    | .ok _ =>
                      match env.transferWrite with
                      | .error msg =>
                        (.response (catchResponse pp msg),
                          [ChainAction.getTransactionCount,
                           ChainAction.writeContract "permit" pendingNonce,
                           ChainAction.waitForTransactionReceipt permitHash,
                           ChainAction.writeContract "transferFrom" (pendingNonce + 1)])
                      | .ok transferHash =>
                        match env.transferReceipt with
                        | .error msg =>
                          (.response (catchResponse pp msg),
                            [ChainAction.getTransactionCount,
                             ChainAction.writeContract "permit" pendingNonce,
                             ChainAction.waitForTransactionReceipt permitHash,
                             ChainAction.writeContract "transferFrom" (pendingNonce + 1),
                             ChainAction.waitForTransactionReceipt transferHash])
                        | .ok _ =>
                          (.response ⟨200, true, auth.from_, transferHash,
                              pp.accepted.network, none⟩,
                            [ChainAction.getTransactionCount,
                             ChainAction.writeContract "permit" pendingNonce,
                             ChainAction.waitForTransactionReceipt permitHash,
                             ChainAction.writeContract "transferFrom" (pendingNonce + 1),
                             ChainAction.waitForTransactionReceipt transferHash])
                else
                  (.response ⟨200, true, auth.from_, simulatedTxHash env,
                      pp.accepted.network, none⟩,
                    [ChainAction.getTransactionCount])

end Settle

/-- Two strings whose first characters differ are unequal, even after
appending an arbitrary suffix to the first. -/
theorem string_append_ne (a b t : String) (c d : Char) (la lt : List Char)
    (ha : a.data = c :: la) (ht : t.data = d :: lt) (hcd : c ≠ d) :
    a ++ b ≠ t := by
  intro h
  have h2 : (a ++ b).data = t.data := by rw [h]
  rw [String.data_append, ha, ht, List.cons_append] at h2
  injection h2 with h3 h4
  exact hcd h3

/-- C6: on the EVM verify path, once the signature step has passed, the
request is rejected as expired (reason `Permit expired`, which contains
`expired`) exactly when the current Unix time strictly exceeds
`authorization.validBefore`; at `now = validBefore` the expiry check passes. -/
theorem verify_expiry_iff (cfg : Config) (env : Verify.Env) (pp : PaymentPayload)
    (reqs : PaymentRequirements) (pl : PayloadV2) (auth : Authorization)
    (nc : Verify.NetworkConfig)
    (h1 : pp.accepted.scheme = "exact")
    (h2 : jsStartsWith pp.accepted.network "solana:" = false)
    (h3 : Verify.resolveEvmNetwork cfg pp.accepted.network = some nc)
    (h4 : pp.payload = some pl)
    (h5 : pl.authorization = some auth)
    (h6 : env.sig = Verify.SigOutcome.returnedTrue) :
    (Verify.verifyPayment cfg env (some pp) reqs =
        Verify.VerifyResult.response ⟨200, false, auth.from_, some "Permit expired"⟩
      ↔ env.now > auth.validBefore) ∧
    (∃ pre post, "Permit expired" = pre ++ "expired" ++ post) ∧
    (env.now = auth.validBefore →
      Verify.verifyPayment cfg env (some pp) reqs ≠
        Verify.VerifyResult.response ⟨200, false, auth.from_, some "Permit expired"⟩) := by
  have hiff : Verify.verifyPayment cfg env (some pp) reqs =
      Verify.VerifyResult.response ⟨200, false, auth.from_, some "Permit expired"⟩
      ↔ env.now > auth.validBefore := by
    constructor
    · intro h
      by_contra hn
      simp [Verify.verifyPayment, h1, h2, h3, h4, h5, h6, hn] at h
      split at h
      · simp_all
      · split at h
        · simp_all
        · split at h <;> simp_all
    · intro hn
      simp [Verify.verifyPayment, h1, h2, h3, h4, h5, h6, hn]
  refine ⟨hiff, ⟨"Permit ", "", rfl⟩, fun heq hcontra => ?_⟩
  have := hiff.mp hcontra
  omega

/-- C1: on the EVM verify path, once signature and expiry have passed, the
request is rejected with `Insufficient amount` exactly when
`authorization.value` is strictly below `paymentRequirements.maxAmountRequired`
(the requirements' amount) under integer comparison, and with
`value ≥ maxAmountRequired` the pipeline proceeds to the balance step
(the recipient check never rejects). -/
theorem verify_amount_iff (cfg : Config) (env : Verify.Env) (pp : PaymentPayload)
    (reqs : PaymentRequirements) (pl : PayloadV2) (auth : Authorization)
    (nc : Verify.NetworkConfig)
    (h1 : pp.accepted.scheme = "exact")
    (h2 : jsStartsWith pp.accepted.network "solana:" = false)
    (h3 : Verify.resolveEvmNetwork cfg pp.accepted.network = some nc)
    (h4 : pp.payload = some pl)
    (h5 : pl.authorization = some auth)
    (h6 : env.sig = Verify.SigOutcome.returnedTrue)
    (h7 : ¬ env.now > auth.validBefore) :
    (Verify.verifyPayment cfg env (some pp) reqs =
        Verify.VerifyResult.response ⟨200, false, auth.from_, some "Insufficient amount"⟩
      ↔ auth.value < reqs.maxAmountRequired) ∧
    (reqs.maxAmountRequired ≤ auth.value →
      Verify.verifyPayment cfg env (some pp) reqs =
        match env.balance with
        | Except.error msg => Verify.VerifyResult.response
            ⟨500, false, payerOf pp, some ("Server error: " ++ msg)⟩
        | Except.ok balance =>
          if balance < auth.value then
            Verify.VerifyResult.response
              ⟨200, false, auth.from_, some "Insufficient balance"⟩
          else
            Verify.VerifyResult.response ⟨200, true, auth.from_, none⟩) := by
  have key : Verify.verifyPayment cfg env (some pp) reqs =
      if auth.value < reqs.maxAmountRequired then
        Verify.VerifyResult.response ⟨200, false, auth.from_, some "Insufficient amount"⟩
      else
        match env.balance with
        | Except.error msg => Verify.VerifyResult.response
            ⟨500, false, payerOf pp, some ("Server error: " ++ msg)⟩
        | Except.ok balance =>
          if balance < auth.value then
            Verify.VerifyResult.response
              ⟨200, false, auth.from_, some "Insufficient balance"⟩
          else
            Verify.VerifyResult.response ⟨200, true, auth.from_, none⟩ := by
    simp [Verify.verifyPayment, h1, h2, h3, h4, h5, h6, h7]
  constructor
  · constructor
    · intro h
      by_contra hlt
      rw [key, if_neg hlt] at h
      split at h
      · simp_all
      · split at h <;> simp_all
    · intro hlt
      rw [key, if_pos hlt]
  · intro hge
    rw [key, if_neg (by omega)]

/-- C7: on the EVM verify path at the balance step, the on-chain balance is
compared to `authorization.value` with integer semantics and `≥` passing:
a balance equal to the value is accepted, a balance strictly below it is
rejected with reason `Insufficient balance`. -/
theorem verify_balance_boundary (cfg : Config) (env : Verify.Env) (pp : PaymentPayload)
    (reqs : PaymentRequirements) (pl : PayloadV2) (auth : Authorization)
    (nc : Verify.NetworkConfig) (b : Nat)
    (h1 : pp.accepted.scheme = "exact")
    (h2 : jsStartsWith pp.accepted.network "solana:" = false)
    (h3 : Verify.resolveEvmNetwork cfg pp.accepted.network = some nc)
    (h4 : pp.payload = some pl)
    (h5 : pl.authorization = some auth)
    (h6 : env.sig = Verify.SigOutcome.returnedTrue)
    (h7 : ¬ env.now > auth.validBefore)
    (h8 : ¬ auth.value < reqs.maxAmountRequired)
    (h9 : env.balance = Except.ok b) :
    (Verify.verifyPayment cfg env (some pp) reqs =
        Verify.VerifyResult.response ⟨200, false, auth.from_, some "Insufficient balance"⟩
      ↔ b < auth.value) ∧
    (auth.value ≤ b →
      Verify.verifyPayment cfg env (some pp) reqs =
        Verify.VerifyResult.response ⟨200, true, auth.from_, none⟩) ∧
    (b = auth.value →
      Verify.verifyPayment cfg env (some pp) reqs =
        Verify.VerifyResult.response ⟨200, true, auth.from_, none⟩) := by
  have key : Verify.verifyPayment cfg env (some pp) reqs =
      if b < auth.value then
        Verify.VerifyResult.response ⟨200, false, auth.from_, some "Insufficient balance"⟩
      else
        Verify.VerifyResult.response ⟨200, true, auth.from_, none⟩ := by
    simp [Verify.verifyPayment, h1, h2, h3, h4, h5, h6, h7, h8, h9]
  refine ⟨⟨fun h => ?_, fun h => by rw [key, if_pos h]⟩,
    fun h => by rw [key, if_neg (by omega)],
    fun h => by rw [key, if_neg (by omega)]⟩
  by_contra hlt
  rw [key, if_neg hlt] at h
  simp at h

/-- C5: on the EVM verify path, a thrown balance read (RPC transport failure
carrying message `msg`) reaches the outer catch and is answered as an HTTP
500 `Server error:` result — a classification distinct from every business
rejection (which use status 200), and in particular the reason is never
`Insufficient balance`. -/
theorem verify_balance_transport_internal_error (cfg : Config) (env : Verify.Env)
    (pp : PaymentPayload) (reqs : PaymentRequirements) (pl : PayloadV2)
    (auth : Authorization) (nc : Verify.NetworkConfig) (msg : String)
    (h1 : pp.accepted.scheme = "exact")
    (h2 : jsStartsWith pp.accepted.network "solana:" = false)
    (h3 : Verify.resolveEvmNetwork cfg pp.accepted.network = some nc)
    (h4 : pp.payload = some pl)
    (h5 : pl.authorization = some auth)
    (h6 : env.sig = Verify.SigOutcome.returnedTrue)
    (h7 : ¬ env.now > auth.validBefore)
    (h8 : ¬ auth.value < reqs.maxAmountRequired)
    (h9 : env.balance = Except.error msg) :
    Verify.verifyPayment cfg env (some pp) reqs =
      Verify.VerifyResult.response ⟨500, false, payerOf pp, some ("Server error: " ++ msg)⟩ ∧
    (∀ r, Verify.verifyPayment cfg env (some pp) reqs = Verify.VerifyResult.response r →
      r.invalidReason ≠ some "Insufficient balance" ∧ r.status = 500) := by
  have key : Verify.verifyPayment cfg env (some pp) reqs =
      Verify.VerifyResult.response ⟨500, false, payerOf pp, some ("Server error: " ++ msg)⟩ := by
    simp [Verify.verifyPayment, h1, h2, h3, h4, h5, h6, h7, h8, h9]
  refine ⟨key, fun r hr => ?_⟩
  rw [key] at hr
  injection hr with hr
  subst hr
  refine ⟨fun hcon => ?_, rfl⟩
  rw [Option.some.injEq] at hcon
  exact string_append_ne "Server error: " msg "Insufficient balance" 'S' 'I'
    "erver error: ".data "nsufficient balance".data rfl rfl (by decide) hcon

/-- C10: on the EVM verify path at the signature step, a thrown
`verifyTypedData` (malformed signature, internal failure) is caught and
answered as an in-band HTTP 200 `isValid:false` result, never propagated;
a clean `false` return is also an HTTP 200 `isValid:false` result; the two
results agree in status, validity and payer, differing only in the wording
of the reason. -/
theorem verify_signature_error_handling (cfg : Config) (e1 e2 : Verify.Env)
    (pp : PaymentPayload) (reqs : PaymentRequirements) (pl : PayloadV2)
    (auth : Authorization) (nc : Verify.NetworkConfig)
    (h1 : pp.accepted.scheme = "exact")
    (h2 : jsStartsWith pp.accepted.network "solana:" = false)
    (h3 : Verify.resolveEvmNetwork cfg pp.accepted.network = some nc)
    (h4 : pp.payload = some pl)
    (h5 : pl.authorization = some auth)
    (hraised : e1.sig = Verify.SigOutcome.raised)
    (hfalse : e2.sig = Verify.SigOutcome.returnedFalse) :
    Verify.verifyPayment cfg e1 (some pp) reqs =
      Verify.VerifyResult.response
        ⟨200, false, auth.from_, some "Permit signature verification failed"⟩ ∧
    Verify.verifyPayment cfg e2 (some pp) reqs =
      Verify.VerifyResult.response
        ⟨200, false, auth.from_, some "Invalid permit signature"⟩ ∧
    (∀ r1 r2, Verify.verifyPayment cfg e1 (some pp) reqs = Verify.VerifyResult.response r1 →
      Verify.verifyPayment cfg e2 (some pp) reqs = Verify.VerifyResult.response r2 →
      r1.status = 200 ∧ r2.status = 200 ∧ r1.isValid = false ∧ r2.isValid = false ∧
      r1.payer = r2.payer ∧ r1.invalidReason ≠ r2.invalidReason) := by
  have k1 : Verify.verifyPayment cfg e1 (some pp) reqs =
      Verify.VerifyResult.response
        ⟨200, false, auth.from_, some "Permit signature verification failed"⟩ := by
    simp [Verify.verifyPayment, h1, h2, h3, h4, h5, hraised]
  have k2 : Verify.verifyPayment cfg e2 (some pp) reqs =
      Verify.VerifyResult.response
        ⟨200, false, auth.from_, some "Invalid permit signature"⟩ := by
    simp [Verify.verifyPayment, h1, h2, h3, h4, h5, hfalse]
  refine ⟨k1, k2, fun r1 r2 hr1 hr2 => ?_⟩
  rw [k1] at hr1
  rw [k2] at hr2
  injection hr1 with hr1
  injection hr2 with hr2
  subst hr1
  subst hr2
  refine ⟨rfl, rfl, rfl, rfl, rfl, by simp⟩

/-- Classification of every HTTP response the verify route can produce, by
its `invalidReason`; the `Missing authorization data in payload` case can
only arise once the scheme check passed and the network resolved. -/
theorem verify_invalidReason_cases (cfg : Config) (env : Verify.Env)
    (ppOpt : Option PaymentPayload) (reqs : PaymentRequirements) (r : Verify.VerifyResponse)
    (h : Verify.verifyPayment cfg env ppOpt reqs = Verify.VerifyResult.response r) :
    r.invalidReason = some "Missing paymentPayload" ∨
    (∃ pp, ppOpt = some pp ∧
      r.invalidReason = some ("Unsupported scheme: " ++ pp.accepted.scheme)) ∨
    (∃ pp, ppOpt = some pp ∧
      r.invalidReason = some ("Unknown network: " ++ pp.accepted.network)) ∨
    (∃ pp nc, ppOpt = some pp ∧ pp.accepted.scheme = "exact" ∧
      Verify.resolveEvmNetwork cfg pp.accepted.network = some nc ∧
      r.invalidReason = some "Missing authorization data in payload") ∨
    r.invalidReason = some "Permit signature verification failed" ∨
    r.invalidReason = some "Invalid permit signature" ∨
    r.invalidReason = some "Permit expired" ∨
    r.invalidReason = some "Insufficient amount" ∨
    (∃ msg, r.invalidReason = some ("Server error: " ++ msg)) ∨
    r.invalidReason = some "Insufficient balance" ∨
    r.invalidReason = none := by
  cases ppOpt with
  | none =>
    simp only [Verify.verifyPayment] at h
    injection h with h
    subst h
    exact Or.inl rfl
  | some pp =>
    simp only [Verify.verifyPayment] at h
    by_cases hscheme : pp.accepted.scheme = "exact"
    case neg =>
      rw [if_pos hscheme] at h
      injection h with h
      subst h
      exact Or.inr (Or.inl ⟨pp, rfl, rfl⟩)
    case pos =>
      rw [if_neg (by simp [hscheme])] at h
      split at h
      · exact absurd h (by simp)
      · split at h
        · injection h with h
          subst h
          exact Or.inr (Or.inr (Or.inl ⟨pp, rfl, rfl⟩))
        · rename_i hsol nc hres
          split at h
          · injection h with h
            subst h
            exact Or.inr (Or.inr (Or.inr (Or.inl
              ⟨pp, nc, rfl, hscheme, hres, rfl⟩)))
          · split at h
            · injection h with h
              subst h
              exact Or.inr (Or.inr (Or.inr (Or.inl
                ⟨pp, nc, rfl, hscheme, hres, rfl⟩)))
            · split at h
              · injection h with h
                subst h
                exact Or.inr (Or.inr (Or.inr (Or.inr (Or.inl rfl))))
              · injection h with h
                subst h
                exact Or.inr (Or.inr (Or.inr (Or.inr (Or.inr (Or.inl rfl)))))
              · split at h
                · injection h with h
                  subst h
                  exact Or.inr (Or.inr (Or.inr (Or.inr (Or.inr (Or.inr (Or.inl rfl))))))
                · split at h
                  · injection h with h
                    subst h
                    exact Or.inr (Or.inr (Or.inr (Or.inr (Or.inr (Or.inr
                      (Or.inr (Or.inl rfl)))))))
                  · split at h
                    · rename_i hrec
                      exact absurd rfl hrec
                    · split at h
                      · rename_i msg hbal
                        injection h with h
                        subst h
                        exact Or.inr (Or.inr (Or.inr (Or.inr (Or.inr (Or.inr
                          (Or.inr (Or.inr (Or.inl ⟨msg, rfl⟩))))))))
                      · split at h
                        · injection h with h
                          subst h
                          exact Or.inr (Or.inr (Or.inr (Or.inr (Or.inr (Or.inr
                            (Or.inr (Or.inr (Or.inr (Or.inl rfl)))))))))
                        · injection h with h
                          subst h
                          exact Or.inr (Or.inr (Or.inr (Or.inr (Or.inr (Or.inr
                            (Or.inr (Or.inr (Or.inr (Or.inr rfl)))))))))

/-- C3: on the EVM verify path the recipient check compares
`paymentRequirements.payTo` (assigned to the local `recipient`) against
`paymentRequirements.payTo` itself, so it always passes and no response of
the verify route ever carries the `Invalid recipient` reason. -/
theorem verify_recipient_check_unreachable :
    (∀ reqs : PaymentRequirements,
      (jsToLowerCase reqs.payTo ≠ jsToLowerCase reqs.payTo) = False) ∧
    (∀ (cfg : Config) (env : Verify.Env) (ppOpt : Option PaymentPayload)
      (reqs : PaymentRequirements) (r : Verify.VerifyResponse),
      Verify.verifyPayment cfg env ppOpt reqs = Verify.VerifyResult.response r →
      r.invalidReason ≠ some "Invalid recipient") := by
  refine ⟨fun reqs => by simp, fun cfg env ppOpt reqs r h hcon => ?_⟩
  rcases verify_invalidReason_cases cfg env ppOpt reqs r h with
    h1 | ⟨pp, _, h1⟩ | ⟨pp, _, h1⟩ | ⟨pp, nc, _, _, _, h1⟩ | h1 | h1 | h1 | h1 |
    ⟨msg, h1⟩ | h1 | h1 <;> rw [h1] at hcon
  · exact absurd hcon (by decide)
  · rw [Option.some.injEq] at hcon
    exact string_append_ne "Unsupported scheme: " pp.accepted.scheme "Invalid recipient"
      'U' 'I' "nsupported scheme: ".data "nvalid recipient".data rfl rfl (by decide) hcon
  · rw [Option.some.injEq] at hcon
    exact string_append_ne "Unknown network: " pp.accepted.network "Invalid recipient"
      'U' 'I' "nknown network: ".data "nvalid recipient".data rfl rfl (by decide) hcon
  · exact absurd hcon (by decide)
  · exact absurd hcon (by decide)
  · exact absurd hcon (by decide)
  · exact absurd hcon (by decide)
  · exact absurd hcon (by decide)
  · rw [Option.some.injEq] at hcon
    exact string_append_ne "Server error: " msg "Invalid recipient"
      'S' 'I' "erver error: ".data "nvalid recipient".data rfl rfl (by decide) hcon
  · exact absurd hcon (by decide)
  · exact absurd hcon (by decide)

/-- C9: the verify pipeline short-circuits in order: any scheme other than
`exact` is rejected as `Unsupported scheme: <scheme>` regardless of every
other field; with scheme `exact`, a network that does not route to the
Solana handler and does not resolve in the EVM registry is rejected as
`Unknown network: <network>` regardless of payload contents and environment;
and the `Missing authorization data in payload` rejection can only be
produced after the scheme check passed and the network resolved. -/
theorem verify_pipeline_short_circuit :
    (∀ (cfg : Config) (env : Verify.Env) (pp : PaymentPayload)
      (reqs : PaymentRequirements),
      pp.accepted.scheme ≠ "exact" →
      Verify.verifyPayment cfg env (some pp) reqs =
        Verify.VerifyResult.response
          ⟨200, false, payerOf pp, some ("Unsupported scheme: " ++ pp.accepted.scheme)⟩) ∧
    (∀ (cfg : Config) (env : Verify.Env) (pp : PaymentPayload)
      (reqs : PaymentRequirements),
      pp.accepted.scheme = "exact" →
      jsStartsWith pp.accepted.network "solana:" = false →
      Verify.resolveEvmNetwork cfg pp.accepted.network = none →
      Verify.verifyPayment cfg env (some pp) reqs =
        Verify.VerifyResult.response
          ⟨200, false, payerOf pp, some ("Unknown network: " ++ pp.accepted.network)⟩) ∧
    (∀ (cfg : Config) (env : Verify.Env) (ppOpt : Option PaymentPayload)
      (reqs : PaymentRequirements) (r : Verify.VerifyResponse),
      Verify.verifyPayment cfg env ppOpt reqs = Verify.VerifyResult.response r →
      r.invalidReason = some "Missing authorization data in payload" →
      ∃ pp nc, ppOpt = some pp ∧ pp.accepted.scheme = "exact" ∧
        Verify.resolveEvmNetwork cfg pp.accepted.network = some nc) := by
  refine ⟨fun cfg env pp reqs hs => ?_, fun cfg env pp reqs hs hsol hres => ?_,
    fun cfg env ppOpt reqs r h hcon => ?_⟩
  · simp only [Verify.verifyPayment]
    rw [if_pos hs]
  · simp [Verify.verifyPayment, hs, hsol, hres]
  · rcases verify_invalidReason_cases cfg env ppOpt reqs r h with
      h1 | ⟨pp, _, h1⟩ | ⟨pp, _, h1⟩ | ⟨pp, nc, hsome, hs, hres, h1⟩ | h1 | h1 | h1 | h1 |
      ⟨msg, h1⟩ | h1 | h1
    · rw [h1] at hcon
      exact absurd hcon (by decide)
    · rw [h1, Option.some.injEq] at hcon
      exact absurd hcon (string_append_ne "Unsupported scheme: " pp.accepted.scheme
        "Missing authorization data in payload" 'U' 'M' "nsupported scheme: ".data
        "issing authorization data in payload".data rfl rfl (by decide))
    · rw [h1, Option.some.injEq] at hcon
      exact absurd hcon (string_append_ne "Unknown network: " pp.accepted.network
        "Missing authorization data in payload" 'U' 'M' "nknown network: ".data
        "issing authorization data in payload".data rfl rfl (by decide))
    · exact ⟨pp, nc, hsome, hs, hres⟩
    · rw [h1] at hcon
      exact absurd hcon (by decide)
    · rw [h1] at hcon
      exact absurd hcon (by decide)
    · rw [h1] at hcon
      exact absurd hcon (by decide)
    · rw [h1] at hcon
      exact absurd hcon (by decide)
    · rw [h1, Option.some.injEq] at hcon
      exact absurd hcon (string_append_ne "Server error: " msg
        "Missing authorization data in payload" 'S' 'M' "erver error: ".data
        "issing authorization data in payload".data rfl rfl (by decide))
    · rw [h1] at hcon
      exact absurd hcon (by decide)
    · rw [h1] at hcon
      exact absurd hcon (by decide)

/-- C4: an EVM network identifier parses exactly when it is
`eip155:<nonempty decimal digit string>` (verify and settle use the same
parser), resolution requires the parsed chain id to equal one of the four
configured chain ids by exact integer comparison, and a bare chain id,
empty suffix, non-numeric suffix, or legacy alias is rejected by the verify
route with the same unknown-network classification, while a well-formed but
unconfigured `eip155:999999` yields the reason exactly
`Unknown network: eip155:999999` on both verify and settle. -/
theorem caip2_network_validation :
    (∀ (s : String) (n : Nat), Verify.parseEvmChainId s = some n ↔
      ∃ ds, ds ≠ [] ∧ ds.all Char.isDigit = true ∧
        s.data = "eip155:".data ++ ds ∧ n = decDigitsToNat ds) ∧
    (∀ s : String, Settle.parseEvmChainId s = Verify.parseEvmChainId s) ∧
    (∀ (cfg : Config) (s : String), (Verify.resolveEvmNetwork cfg s).isSome = true ↔
      ∃ n, Verify.parseEvmChainId s = some n ∧
        (n = cfg.baseChainId ∨ n = cfg.baseSepoliaChainId ∨
         n = cfg.radiusChainId ∨ n = cfg.radiusTestnetChainId)) ∧
    (∀ (cfg : Config) (s : String),
      (Settle.resolveEvmNetwork cfg s).isSome = (Verify.resolveEvmNetwork cfg s).isSome) ∧
    (∀ (cfg : Config) (env : Verify.Env) (pp : PaymentPayload)
      (reqs : PaymentRequirements),
      pp.accepted.scheme = "exact" →
      (pp.accepted.network = "8453" ∨ pp.accepted.network = "eip155:" ∨
       pp.accepted.network = "eip155:abc" ∨ pp.accepted.network = "base") →
      Verify.verifyPayment cfg env (some pp) reqs =
        Verify.VerifyResult.response
          ⟨200, false, payerOf pp, some ("Unknown network: " ++ pp.accepted.network)⟩) ∧
    (∀ (cfg : Config) (env : Verify.Env) (pp : PaymentPayload)
      (reqs : PaymentRequirements),
      pp.accepted.scheme = "exact" → pp.accepted.network = "eip155:999999" →
      cfg.baseChainId ≠ 999999 → cfg.baseSepoliaChainId ≠ 999999 →
      cfg.radiusChainId ≠ 999999 → cfg.radiusTestnetChainId ≠ 999999 →
      Verify.verifyPayment cfg env (some pp) reqs =
        Verify.VerifyResult.response
          ⟨200, false, payerOf pp, some "Unknown network: eip155:999999"⟩) ∧
    (∀ (cfg : Config) (env : Settle.Env) (pp : PaymentPayload)
      (reqs : PaymentRequirements),
      pp.accepted.scheme = "exact" → pp.accepted.network = "eip155:999999" →
      cfg.baseChainId ≠ 999999 → cfg.baseSepoliaChainId ≠ 999999 →
      cfg.radiusChainId ≠ 999999 → cfg.radiusTestnetChainId ≠ 999999 →
      Settle.settlePayment cfg env (some pp) reqs =
        (Settle.SettleResult.response
          ⟨200, false, payerOf pp, "", "eip155:999999",
            some "Unknown network: eip155:999999"⟩, [])) := by
  have hlen : ("eip155:".data).length = 7 := by decide
  have parse_iff : ∀ (s : String) (n : Nat), Verify.parseEvmChainId s = some n ↔
      ∃ ds, ds ≠ [] ∧ ds.all Char.isDigit = true ∧
        s.data = "eip155:".data ++ ds ∧ n = decDigitsToNat ds := by
    intro s n
    constructor
    · intro h
      unfold Verify.parseEvmChainId at h
      split at h
      · rename_i hc
        obtain ⟨hpre, hne, hdig⟩ := hc
        simp only [jsStartsWith] at hpre
        obtain ⟨rest, hrest⟩ := List.isPrefixOf_iff_prefix.mp hpre
        have hdrop : s.data.drop 7 = rest := by
          rw [← hrest, ← hlen]
          exact List.drop_left _ _
        injection h with h
        exact ⟨rest, hdrop ▸ hne, hdrop ▸ hdig, hrest.symm, by rw [← h, hdrop]⟩
      · exact absurd h (by simp)
    · rintro ⟨ds, hne, hdig, hdata, hn⟩
      have hdrop : s.data.drop 7 = ds := by
        rw [hdata, ← hlen]
        exact List.drop_left _ _
      unfold Verify.parseEvmChainId
      rw [if_pos ⟨by
          simp only [jsStartsWith]
          exact List.isPrefixOf_iff_prefix.mpr ⟨ds, hdata.symm⟩,
        by rw [hdrop]; exact hne, by rw [hdrop]; exact hdig⟩]
      rw [hdrop, hn]
  have resolve_iff : ∀ (cfg : Config) (s : String),
      (Verify.resolveEvmNetwork cfg s).isSome = true ↔
      ∃ n, Verify.parseEvmChainId s = some n ∧
        (n = cfg.baseChainId ∨ n = cfg.baseSepoliaChainId ∨
         n = cfg.radiusChainId ∨ n = cfg.radiusTestnetChainId) := by
    intro cfg s
    rcases hp : Verify.parseEvmChainId s with _ | n
    · simp [Verify.resolveEvmNetwork, hp]
    · simp only [Verify.resolveEvmNetwork, hp]
      split_ifs <;> simp [*]
  have unknown_response : ∀ (cfg : Config) (env : Verify.Env) (pp : PaymentPayload)
      (reqs : PaymentRequirements),
      pp.accepted.scheme = "exact" →
      jsStartsWith pp.accepted.network "solana:" = false →
      Verify.resolveEvmNetwork cfg pp.accepted.network = none →
      Verify.verifyPayment cfg env (some pp) reqs =
        Verify.VerifyResult.response
          ⟨200, false, payerOf pp, some ("Unknown network: " ++ pp.accepted.network)⟩ := by
    intro cfg env pp reqs hs hsol hres
    simp [Verify.verifyPayment, hs, hsol, hres]
  have resolve_none : ∀ (cfg : Config) (s : String),
      Verify.parseEvmChainId s = none → Verify.resolveEvmNetwork cfg s = none := by
    intro cfg s hp
    simp [Verify.resolveEvmNetwork, hp]
  refine ⟨parse_iff, fun s => rfl, resolve_iff, ?_, ?_, ?_, ?_⟩
  · intro cfg s
    have hp2 : Settle.parseEvmChainId s = Verify.parseEvmChainId s := rfl
    rcases hp : Verify.parseEvmChainId s with _ | n
    · simp only [Settle.resolveEvmNetwork, Verify.resolveEvmNetwork, hp2, hp]
      rfl
    · simp only [Settle.resolveEvmNetwork, Verify.resolveEvmNetwork, hp2, hp]
      split_ifs <;> rfl
  · intro cfg env pp reqs hs hmem
    rcases hmem with hnet | hnet | hnet | hnet <;>
      exact unknown_response cfg env pp reqs hs
        (by rw [hnet]; decide)
        (by rw [hnet]; exact resolve_none cfg _ (by decide))
  · intro cfg env pp reqs hs hnet h1 h2 h3 h4
    have hpar : Verify.parseEvmChainId "eip155:999999" = some 999999 := by decide
    have hres : Verify.resolveEvmNetwork cfg pp.accepted.network = none := by
      rw [hnet]
      simp [Verify.resolveEvmNetwork, hpar, Ne.symm h1, Ne.symm h2, Ne.symm h3, Ne.symm h4]
    have happ : "Unknown network: " ++ "eip155:999999" = "Unknown network: eip155:999999" := by
      decide
    have := unknown_response cfg env pp reqs hs (by rw [hnet]; decide) hres
    rw [this, hnet, happ]
  · intro cfg env pp reqs hs hnet h1 h2 h3 h4
    have hpar : Settle.parseEvmChainId "eip155:999999" = some 999999 := by decide
    have hres : Settle.resolveEvmNetwork cfg pp.accepted.network = none := by
      rw [hnet]
      simp [Settle.resolveEvmNetwork, hpar, Ne.symm h1, Ne.symm h2, Ne.symm h3, Ne.symm h4]
    have hsol : jsStartsWith pp.accepted.network "solana:" = false := by rw [hnet]; decide
    have happ : "Unknown network: " ++ "eip155:999999" = "Unknown network: eip155:999999" := by
      decide
    have hor : jsOrStr "eip155:999999" "unknown" = "eip155:999999" := by decide
    have hsettle : Settle.settlePayment cfg env (some pp) reqs =
        (Settle.SettleResult.response
          ⟨200, false, payerOf pp, "", jsOrStr pp.accepted.network "unknown",
            some ("Unknown network: " ++ pp.accepted.network)⟩, []) := by
      simp [Settle.settlePayment, hs, hsol, hres]
    rw [hsettle, hnet, happ, hor]

/-- Test authorization mirroring the repository's payment fixtures. -/
def testAuth : Authorization where
  from_ := "0xf39Fd6e51aad88F6F4ce6aB8827279cffFb92266"
  to_ := "0x3C44CdDdB6a900fa2b585dd299e03d12FA4293BC"
  value := 10000000000000000
  validAfter := 0
  validBefore := 1893456000
  nonce := 0

/-- Test payload carrying the test authorization. -/
def testPayload : PayloadV2 where
  authorization := some testAuth
  signature := "0xsignature"

/-- Test x402 V2 payment payload for Base mainnet. -/
def basePP : PaymentPayload where
  accepted := { scheme := "exact", network := "eip155:8453" }
  payload := some testPayload

/-- Test payment requirements. -/
def testReqs : PaymentRequirements where
  payTo := "0x70997970C51812dc3A010C7d01b50e0d17dc79C8"
  maxAmountRequired := 10000000000000000
  extra := none

/-- A private key string that viem's `privateKeyToAccount` accepts without
throwing: `0x` followed by exactly 64 hexadecimal digits. -/
def isWellFormedPrivateKey (k : String) : Bool :=
  jsStartsWith k "0x" && ((k.data.drop 2).length == 64) &&
    (k.data.drop 2).all (fun c => (hexDigitVal c).isSome)

/-- Default configuration with a Base facilitator key configured (the
well-known Hardhat account-0 test key: `0x` followed by 64 hex digits, so
viem's `privateKeyToAccount` accepts it). -/
def keyConfig : Config :=
  { defaultConfig with baseFacilitatorPrivateKey :=
      "0xac0974bec39a17e36ba4a6b4d238ff944bacb478cbed5efcae784d7bf4f2ff80" }

/-- The resolved Base-mainnet settle network record under `keyConfig`. -/
def baseSettleNC : Settle.NetworkConfig where
  label := "Base Mainnet"
  emoji := "🔵"
  chainId := 8453
  rpcUrl := "https://mainnet.base.org"
  sbcTokenAddress := "0xfdcC3dd6671eaB0709A4C0f3F53De9a333d80798"
  decimals := 18
  privateKey := "0xac0974bec39a17e36ba4a6b4d238ff944bacb478cbed5efcae784d7bf4f2ff80"
  testnet := false

/-- Settle environment in simulated mode (`ENABLE_REAL_SETTLEMENT` off),
with every chain call set up to succeed were it issued. -/
def simSettleEnv : Settle.Env where
  pendingNonce := Except.ok 5
  permitWrite := Except.ok "0xpermithash"
  permitReceipt := Except.ok ()
  transferWrite := Except.ok "0xtransferhash"
  transferReceipt := Except.ok ()
  enableRealSettlement := false
  rand1 := "aaaa"
  rand2 := "bbbb"
  rand3 := "cccc"
  rand4 := "dddd"

/-- C2 counterexample: a concrete simulated-mode settle request — whose
configured facilitator key is well-formed, so `privateKeyToAccount` accepts
it and the run reaches the nonce fetch — reports `success:true` with a
fabricated hash, yet its chain-interaction trace is not empty: the pending
transaction count is read before the `ENABLE_REAL_SETTLEMENT` switch is
consulted. -/
theorem simulated_settle_performs_chain_read :
    isWellFormedPrivateKey keyConfig.baseFacilitatorPrivateKey = true ∧
    Settle.settlePayment keyConfig simSettleEnv (some basePP) testReqs =
      (Settle.SettleResult.response
        ⟨200, true, "0xf39Fd6e51aad88F6F4ce6aB8827279cffFb92266",
          "0xaaaabbbbccccdddd", "eip155:8453", none⟩,
       [Settle.ChainAction.getTransactionCount]) ∧
    [Settle.ChainAction.getTransactionCount] ≠ ([] : List Settle.ChainAction) := by
  decide

/-- C2 amended: in simulated mode, for a configured key that
`privateKeyToAccount` accepts, the settle route fabricates a `0x`-prefixed
transaction identifier and reports `success:true`, and performs no chain
write and no receipt wait — but it does perform exactly one chain read, the
pending transaction-count query, which precedes the mode switch. -/
theorem simulated_settle_success_read_only (cfg : Config) (env : Settle.Env)
    (pp : PaymentPayload) (reqs : PaymentRequirements) (pl : PayloadV2)
    (auth : Authorization) (nc : Settle.NetworkConfig) (n : Nat)
    (h1 : pp.accepted.scheme = "exact")
    (h2 : jsStartsWith pp.accepted.network "solana:" = false)
    (h3 : Settle.resolveEvmNetwork cfg pp.accepted.network = some nc)
    (h4 : pp.payload = some pl)
    (h5 : pl.authorization = some auth)
    (h6 : nc.privateKey ≠ "")
    (h6w : isWellFormedPrivateKey nc.privateKey = true)
    (h7 : env.pendingNonce = Except.ok n)
    (h8 : env.enableRealSettlement = false) :
    Settle.settlePayment cfg env (some pp) reqs =
      (Settle.SettleResult.response
        ⟨200, true, auth.from_, Settle.simulatedTxHash env, pp.accepted.network, none⟩,
       [Settle.ChainAction.getTransactionCount]) ∧
    jsStartsWith (Settle.simulatedTxHash env) "0x" = true := by
  constructor
  · simp [Settle.settlePayment, h1, h2, h3, h4, h5, h6, h7, h8]
  · have hdata : (Settle.simulatedTxHash env).data =
        "0x".data ++ (env.rand1.data ++ (env.rand2.data ++ (env.rand3.data ++ env.rand4.data))) := by
      simp [Settle.simulatedTxHash, String.data_append, List.append_assoc]
    simp only [jsStartsWith, hdata]
    exact List.isPrefixOf_iff_prefix.mpr (List.prefix_append _ _)

/-- Witness for the amended C2 theorem at a concrete simulated-mode request. -/
theorem simulated_settle_success_read_only_witness :
    Settle.settlePayment keyConfig simSettleEnv (some basePP) testReqs =
      (Settle.SettleResult.response
        ⟨200, true, testAuth.from_, Settle.simulatedTxHash simSettleEnv,
          basePP.accepted.network, none⟩,
       [Settle.ChainAction.getTransactionCount]) ∧
    jsStartsWith (Settle.simulatedTxHash simSettleEnv) "0x" = true :=
  simulated_settle_success_read_only keyConfig simSettleEnv basePP testReqs
    testPayload testAuth baseSettleNC 5 rfl (by decide) (by decide) rfl rfl
    (by decide) (by decide) rfl rfl

/-- C8: in real-settlement mode, the pending transaction count is read once,
before the permit submission; the permit is submitted with that nonce `n`
and the transferFrom with `n + 1`, with no second count query between them;
the success result's `transaction` is the transferFrom hash (so not the
permit hash whenever the two differ); and every failure along the sequence
is answered with `success:false`, an empty `transaction`, and `errorReason`
carrying the thrown message (non-empty whenever the message is). -/
theorem real_settle_nonce_and_result (cfg : Config) (env : Settle.Env)
    (pp : PaymentPayload) (reqs : PaymentRequirements) (pl : PayloadV2)
    (auth : Authorization) (nc : Settle.NetworkConfig)
    (h1 : pp.accepted.scheme = "exact")
    (h2 : jsStartsWith pp.accepted.network "solana:" = false)
    (h3 : Settle.resolveEvmNetwork cfg pp.accepted.network = some nc)
    (h4 : pp.payload = some pl)
    (h5 : pl.authorization = some auth)
    (h6 : nc.privateKey ≠ "")
    (h8 : env.enableRealSettlement = true) :
    (∀ n ph th, env.pendingNonce = Except.ok n →
      env.permitWrite = Except.ok ph → env.permitReceipt = Except.ok () →
      env.transferWrite = Except.ok th → env.transferReceipt = Except.ok () →
      Settle.settlePayment cfg env (some pp) reqs =
        (Settle.SettleResult.response
          ⟨200, true, auth.from_, th, pp.accepted.network, none⟩,
         [Settle.ChainAction.getTransactionCount,
          Settle.ChainAction.writeContract "permit" n,
          Settle.ChainAction.waitForTransactionReceipt ph,
          Settle.ChainAction.writeContract "transferFrom" (n + 1),
          Settle.ChainAction.waitForTransactionReceipt th]) ∧
      (ph ≠ th →
        (⟨200, true, auth.from_, th, pp.accepted.network, none⟩ :
          Settle.SettleResponse).transaction ≠ ph)) ∧
    (∀ msg, env.pendingNonce = Except.error msg →
      Settle.settlePayment cfg env (some pp) reqs =
        (Settle.SettleResult.response (Settle.catchResponse pp msg),
         [Settle.ChainAction.getTransactionCount])) ∧
    (∀ n msg, env.pendingNonce = Except.ok n → env.permitWrite = Except.error msg →
      Settle.settlePayment cfg env (some pp) reqs =
        (Settle.SettleResult.response (Settle.catchResponse pp msg),
         [Settle.ChainAction.getTransactionCount,
          Settle.ChainAction.writeContract "permit" n])) ∧
    (∀ n ph msg, env.pendingNonce = Except.ok n → env.permitWrite = Except.ok ph →
      env.permitReceipt = Except.error msg →
      Settle.settlePayment cfg env (some pp) reqs =
        (Settle.SettleResult.response (Settle.catchResponse pp msg),
         [Settle.ChainAction.getTransactionCount,
          Settle.ChainAction.writeContract "permit" n,
          Settle.ChainAction.waitForTransactionReceipt ph])) ∧
    (∀ n ph msg, env.pendingNonce = Except.ok n → env.permitWrite = Except.ok ph →
      env.permitReceipt = Except.ok () → env.transferWrite = Except.error msg →
      Settle.settlePayment cfg env (some pp) reqs =
        (Settle.SettleResult.response (Settle.catchResponse pp msg),
         [Settle.ChainAction.getTransactionCount,
          Settle.ChainAction.writeContract "permit" n,
          Settle.ChainAction.waitForTransactionReceipt ph,
          Settle.ChainAction.writeContract "transferFrom" (n + 1)])) ∧
    (∀ n ph th msg, env.pendingNonce = Except.ok n → env.permitWrite = Except.ok ph →
      env.permitReceipt = Except.ok () → env.transferWrite = Except.ok th →
      env.transferReceipt = Except.error msg →
      Settle.settlePayment cfg env (some pp) reqs =
        (Settle.SettleResult.response (Settle.catchResponse pp msg),
         [Settle.ChainAction.getTransactionCount,
          Settle.ChainAction.writeContract "permit" n,
          Settle.ChainAction.waitForTransactionReceipt ph,
          Settle.ChainAction.writeContract "transferFrom" (n + 1),
          Settle.ChainAction.waitForTransactionReceipt th])) ∧
    (∀ msg, msg ≠ "" →
      (Settle.catchResponse pp msg).success = false ∧
      (Settle.catchResponse pp msg).transaction = "" ∧
      (Settle.catchResponse pp msg).errorReason = some msg ∧
      (Settle.catchResponse pp msg).errorReason ≠ some "") := by
  refine ⟨fun n ph th e1 e2 e3 e4 e5 => ⟨?_, fun hne => ?_⟩,
    fun msg e1 => ?_, fun n msg e1 e2 => ?_, fun n ph msg e1 e2 e3 => ?_,
    fun n ph msg e1 e2 e3 e4 => ?_, fun n ph th msg e1 e2 e3 e4 e5 => ?_,
    fun msg hmsg => ⟨rfl, rfl, rfl, fun hcon => hmsg (by
      simpa [Settle.catchResponse] using hcon)⟩⟩
  · simp [Settle.settlePayment, h1, h2, h3, h4, h5, h6, h8, e1, e2, e3, e4, e5]
  · simpa using fun hth => hne hth.symm
  · simp [Settle.settlePayment, h1, h2, h3, h4, h5, h6, e1]
  · simp [Settle.settlePayment, h1, h2, h3, h4, h5, h6, h8, e1, e2]
  · simp [Settle.settlePayment, h1, h2, h3, h4, h5, h6, h8, e1, e2, e3]
  · simp [Settle.settlePayment, h1, h2, h3, h4, h5, h6, h8, e1, e2, e3, e4]
  · simp [Settle.settlePayment, h1, h2, h3, h4, h5, h6, h8, e1, e2, e3, e4, e5]

/-- Verify environment: valid signature, current time before the test
deadline, on-chain balance exactly equal to the authorized value. -/
def goodVerifyEnv : Verify.Env where
  sig := Verify.SigOutcome.returnedTrue
  now := 1700000000
  balance := Except.ok 10000000000000000

/-- Verify environment whose clock is past the test deadline. -/
def expiredVerifyEnv : Verify.Env where
  sig := Verify.SigOutcome.returnedTrue
  now := 1900000000
  balance := Except.ok 0

/-- Verify environment whose balance read throws a transport error. -/
def errVerifyEnv : Verify.Env where
  sig := Verify.SigOutcome.returnedTrue
  now := 1700000000
  balance := Except.error "RPC timeout"

/-- Verify environment whose signature check raises. -/
def raisedVerifyEnv : Verify.Env where
  sig := Verify.SigOutcome.raised
  now := 1700000000
  balance := Except.ok 0

/-- Verify environment whose signature check returns `false`. -/
def falseSigVerifyEnv : Verify.Env where
  sig := Verify.SigOutcome.returnedFalse
  now := 1700000000
  balance := Except.ok 0

/-- The resolved Base-mainnet verify network record under `defaultConfig`. -/
def baseVerifyNC : Verify.NetworkConfig where
  label := "Base Mainnet"
  emoji := "🔵"
  chainId := 8453
  rpcUrl := "https://mainnet.base.org"
  sbcTokenAddress := "0xfdcC3dd6671eaB0709A4C0f3F53De9a333d80798"
  decimals := 18

/-- Requirements asking for one unit more than the test authorization. -/
def bigReqs : PaymentRequirements where
  payTo := "0x70997970C51812dc3A010C7d01b50e0d17dc79C8"
  maxAmountRequired := 10000000000000001
  extra := none

/-- Payload with an unsupported scheme. -/
def schemePP : PaymentPayload where
  accepted := { scheme := "bogus", network := "eip155:8453" }
  payload := some testPayload

/-- Payload with a well-formed but unconfigured network. -/
def unknownNetPP : PaymentPayload where
  accepted := { scheme := "exact", network := "eip155:999999" }
  payload := some testPayload

/-- Settle environment in real mode with every chain call succeeding. -/
def realSettleEnv : Settle.Env where
  pendingNonce := Except.ok 7
  permitWrite := Except.ok "0xpermithash"
  permitReceipt := Except.ok ()
  transferWrite := Except.ok "0xtransferhash"
  transferReceipt := Except.ok ()
  enableRealSettlement := true
  rand1 := "a"
  rand2 := "b"
  rand3 := "c"
  rand4 := "d"

/-- Witness for the C6 expiry theorem at a concrete expired request. -/
theorem verify_expiry_iff_witness :
    Verify.verifyPayment defaultConfig expiredVerifyEnv (some basePP) testReqs =
      Verify.VerifyResult.response
        ⟨200, false, testAuth.from_, some "Permit expired"⟩ :=
  (verify_expiry_iff defaultConfig expiredVerifyEnv basePP testReqs testPayload
    testAuth baseVerifyNC rfl (by decide) (by decide) rfl rfl rfl).1.mpr (by decide)

/-- Witness for the C1 amount theorem at a concrete underfunded request. -/
theorem verify_amount_iff_witness :
    Verify.verifyPayment defaultConfig goodVerifyEnv (some basePP) bigReqs =
      Verify.VerifyResult.response
        ⟨200, false, testAuth.from_, some "Insufficient amount"⟩ :=
  (verify_amount_iff defaultConfig goodVerifyEnv basePP bigReqs testPayload
    testAuth baseVerifyNC rfl (by decide) (by decide) rfl rfl rfl (by decide)).1.mpr
    (by decide)

/-- Witness for the C7 balance-boundary theorem at a balance exactly equal
to the authorized value. -/
theorem verify_balance_boundary_witness :
    Verify.verifyPayment defaultConfig goodVerifyEnv (some basePP) testReqs =
      Verify.VerifyResult.response ⟨200, true, testAuth.from_, none⟩ :=
  (verify_balance_boundary defaultConfig goodVerifyEnv basePP testReqs testPayload
    testAuth baseVerifyNC 10000000000000000 rfl (by decide) (by decide) rfl rfl rfl
    (by decide) (by decide) rfl).2.2 rfl

/-- Witness for the C5 transport-error theorem at a concrete RPC failure. -/
theorem verify_balance_transport_internal_error_witness :
    Verify.verifyPayment defaultConfig errVerifyEnv (some basePP) testReqs =
      Verify.VerifyResult.response
        ⟨500, false, payerOf basePP, some ("Server error: " ++ "RPC timeout")⟩ :=
  (verify_balance_transport_internal_error defaultConfig errVerifyEnv basePP testReqs
    testPayload testAuth baseVerifyNC "RPC timeout" rfl (by decide) (by decide) rfl rfl
    rfl (by decide) (by decide) rfl).1

/-- Witness for the C10 signature-error theorem at a raised signature check. -/
theorem verify_signature_error_handling_witness :
    Verify.verifyPayment defaultConfig raisedVerifyEnv (some basePP) testReqs =
      Verify.VerifyResult.response
        ⟨200, false, testAuth.from_, some "Permit signature verification failed"⟩ :=
  (verify_signature_error_handling defaultConfig raisedVerifyEnv falseSigVerifyEnv
    basePP testReqs testPayload testAuth baseVerifyNC rfl (by decide) (by decide)
    rfl rfl rfl rfl).1

/-- Witness for the C3 recipient theorem at a fully passing request. -/
theorem verify_recipient_check_unreachable_witness :
    (⟨200, true, testAuth.from_, none⟩ : Verify.VerifyResponse).invalidReason ≠
      some "Invalid recipient" :=
  verify_recipient_check_unreachable.2 defaultConfig goodVerifyEnv (some basePP)
    testReqs ⟨200, true, testAuth.from_, none⟩ (by decide)

/-- Witness for the C9 short-circuit theorem at an unsupported scheme. -/
theorem verify_pipeline_short_circuit_witness :
    Verify.verifyPayment defaultConfig goodVerifyEnv (some schemePP) testReqs =
      Verify.VerifyResult.response
        ⟨200, false, payerOf schemePP, some ("Unsupported scheme: " ++ "bogus")⟩ :=
  verify_pipeline_short_circuit.1 defaultConfig goodVerifyEnv schemePP testReqs
    (by decide)

/-- Witness for the C4 network-validation theorem at `eip155:999999`. -/
theorem caip2_network_validation_witness :
    Verify.verifyPayment defaultConfig goodVerifyEnv (some unknownNetPP) testReqs =
      Verify.VerifyResult.response
        ⟨200, false, payerOf unknownNetPP, some "Unknown network: eip155:999999"⟩ :=
  caip2_network_validation.2.2.2.2.2.1 defaultConfig goodVerifyEnv unknownNetPP
    testReqs rfl rfl (by decide) (by decide) (by decide) (by decide)

/-- Witness for the C8 real-settlement theorem at a fully successful run. -/
theorem real_settle_nonce_and_result_witness :
    Settle.settlePayment keyConfig realSettleEnv (some basePP) testReqs =
      (Settle.SettleResult.response
        ⟨200, true, testAuth.from_, "0xtransferhash", basePP.accepted.network, none⟩,
       [Settle.ChainAction.getTransactionCount,
        Settle.ChainAction.writeContract "permit" 7,
        Settle.ChainAction.waitForTransactionReceipt "0xpermithash",
        Settle.ChainAction.writeContract "transferFrom" (7 + 1),
        Settle.ChainAction.waitForTransactionReceipt "0xtransferhash"]) :=
  ((real_settle_nonce_and_result keyConfig realSettleEnv basePP testReqs testPayload
    testAuth baseSettleNC rfl (by decide) (by decide) rfl rfl (by decide) rfl).1
    7 "0xpermithash" "0xtransferhash" rfl rfl rfl rfl rfl).1

end X402
